import Mathlib

/-!
Verification of `calculator.py`, a command-line four-function calculator.

The embedding models Python floats as rationals (`ℚ`): every finite float is
a rational, the arithmetic functions in the source are single arithmetic
expressions, and no claim depends on IEEE-754 rounding.  A value flowing to
the `print` in `main` is either a float or the divide-by-zero sentinel
string, modelled by `PyVal`.  The menu loop is modelled as a function from
the list of stdin lines to the list of strings written to stdout (print
payloads and `input()` prompts in order) plus a flag telling whether the
loop exited through the `"5"` branch.
-/

namespace Calculator

/-- A value the calculator prints: a float (modelled as `ℚ`) or a string
(only the divide-by-zero sentinel arises). -/
inductive PyVal where
  | num (q : ℚ)
  | str (s : String)
deriving DecidableEq, Repr

/-- `add` from calculator.py: `return x + y`. -/
def add (x y : ℚ) : ℚ := x + y

/-- `subtract` from calculator.py: `return x - y`. -/
def subtract (x y : ℚ) : ℚ := x - y

/-- `multiply` from calculator.py: `return x * y`. -/
def multiply (x y : ℚ) : ℚ := x * y

/-- `divide` from calculator.py: returns `x / y`, except that a
`ZeroDivisionError` (exactly when `y = 0`) is caught and the sentinel
string is returned instead; the function is total, nothing escapes to the
caller. -/
def divide (x y : ℚ) : PyVal :=
  if y = 0 then .str "Error: Cannot divide by zero" else .num (x / y)

/-- Numeric value of a decimal digit character. -/
def digitVal (c : Char) : ℕ := c.toNat - '0'.toNat

/-- Value of a list of decimal digit characters, most significant first. -/
def natOfDigits (ds : List Char) : ℕ :=
  ds.foldl (fun a c => a * 10 + digitVal c) 0

/-- Whitespace stripping performed by Python's `float` on its argument,
on the character list of the text. -/
def trimList (cs : List Char) : List Char :=
  ((cs.dropWhile Char.isWhitespace).reverse.dropWhile Char.isWhitespace).reverse

/-- Exponent part of a float literal: after `e`/`E`, an optional sign and a
nonempty run of digits consuming the whole remainder; scales the mantissa. -/
def applyExp (mant : ℚ) (cs : List Char) : Option ℚ :=
  let (pos, cs1) : Bool × List Char :=
    match cs with
    | '+' :: r => (true, r)
    | '-' :: r => (false, r)
    | r => (true, r)
  let (ds, rest) := cs1.span Char.isDigit
  if ds = [] ∨ rest ≠ [] then none
  else some (if pos then mant * 10 ^ natOfDigits ds else mant / 10 ^ natOfDigits ds)

/-- Python's builtin `float(text)` as called by `main`, on finite decimal
literals: surrounding whitespace is stripped, then
`[sign] digits [. digits] [(e|E) [sign] digits]` with at least one mantissa
digit is accepted and mapped to its exact rational value (the idealisation
of IEEE-754 rounding; no claim depends on rounding).  Any other text —
e.g. `"abc"` — yields `none`, modelling the `ValueError` that `main`
catches.  Non-finite literals (`inf`, `nan`) and digit-group underscores
lie outside the model; no claim mentions them. -/
def parseFloat (s : String) : Option ℚ :=
  let cs := trimList s.toList
  let (sgn, cs1) : ℚ × List Char :=
    match cs with
    | '+' :: r => (1, r)
    | '-' :: r => (-1, r)
    | r => (1, r)
  let (ip, cs2) := cs1.span Char.isDigit
  let (fp, cs3) :=
    match cs2 with
    | '.' :: r => r.span Char.isDigit
    | r => ([], r)
  if ip = [] ∧ fp = [] then none
  else
    let mant : ℚ := sgn * ((natOfDigits ip : ℚ) + (natOfDigits fp : ℚ) / 10 ^ fp.length)
    match cs3 with
    | [] => some mant
    | 'e' :: r => applyExp mant r
    | 'E' :: r => applyExp mant r
    | _ => none

/-- Rendering of a float the way Python's `print` shows it: an integral
float prints as `"<n>.0"`.  (Python's shortest round-trip repr of
non-integral floats is approximated by fraction rendering; every claim
exercises only integral results and the sentinel string.) -/
def formatFloat (q : ℚ) : String :=
  if q.den = 1 then toString q.num ++ ".0"
  else toString q.num ++ "/" ++ toString q.den

/-- How a `PyVal` appears inside the f-string `f"\nResult: {result}"`. -/
def strOfVal : PyVal → String
  | .num q => formatFloat q
  | .str s => s

/-- First menu line printed each iteration. -/
def menuHeader : String := "\nSimple Calculator"

/-- Second menu line printed each iteration. -/
def menuOptions : String := "1. Add\n2. Subtract\n3. Multiply\n4. Divide\n5. Exit"

/-- The two menu print payloads of one iteration. -/
def menu : List String := [menuHeader, menuOptions]

/-- Prompt of the choice `input()`. -/
def promptChoice : String := "Choose operation (1-5): "

/-- Prompt of the first operand `input()`. -/
def promptFirst : String := "Enter first number: "

/-- Prompt of the second operand `input()`. -/
def promptSecond : String := "Enter second number: "

/-- Message printed when a `ValueError` from `float` is caught. -/
def invalidInputMsg : String := "Invalid input. Please enter numbers only."

/-- Message printed for a choice outside the five tokens. -/
def invalidSelectionMsg : String := "Invalid selection. Please choose 1-5"

/-- Farewell printed by the exit branch. -/
def goodbyeMsg : String := "Goodbye!"

/-- Payload of `print(f"\nResult: {result}")` (the leading newline is in
the source's f-string). -/
def resultLine (v : PyVal) : String := "\nResult: " ++ strOfVal v

/-- The four operation tokens of the `choice in ['1','2','3','4']` test. -/
def opTokens : List String := ["1", "2", "3", "4"]

/-- The if/elif dispatch on the choice inside `main`'s try block. -/
def dispatch (choice : String) (num1 num2 : ℚ) : PyVal :=
  if choice = "1" then .num (add num1 num2)
  else if choice = "2" then .num (subtract num1 num2)
  else if choice = "3" then .num (multiply num1 num2)
  else divide num1 num2

/-- The menu loop of `main` in calculator.py, from the list of stdin lines
to the list of strings written to stdout (print payloads and `input()`
prompts, in order — `input(p)` writes `p` before reading) together with
whether the loop exited through the `"5"` branch.  `false` means stdin was
exhausted while reading (where CPython raises `EOFError`, after the prompt
was written).  Each iteration consumes the choice line and, for a valid
operation choice, one operand line when the first parse fails, else two. -/
def main : List String → List String × Bool
  | [] => (menu ++ [promptChoice], false)
  | choice :: rest =>
    if choice = "5" then
      (menu ++ [promptChoice, goodbyeMsg], true)
    else if choice ∈ opTokens then
      match rest with
      | [] => (menu ++ [promptChoice, promptFirst], false)
      | s1 :: rest1 =>
        match parseFloat s1 with
        | none =>
          let r := main rest1
          (menu ++ [promptChoice, promptFirst, invalidInputMsg] ++ r.1, r.2)
        | some num1 =>
          match rest1 with
          | [] => (menu ++ [promptChoice, promptFirst, promptSecond], false)
          | s2 :: rest2 =>
            match parseFloat s2 with
            | none =>
              let r := main rest2
              (menu ++ [promptChoice, promptFirst, promptSecond, invalidInputMsg] ++ r.1, r.2)
            | some num2 =>
              let r := main rest2
              (menu ++ [promptChoice, promptFirst, promptSecond,
                resultLine (dispatch choice num1 num2)] ++ r.1, r.2)
    else
      let r := main rest
      (menu ++ [promptChoice, invalidSelectionMsg] ++ r.1, r.2)

/-- Number of result lines in an output trace. -/
def countResults (tr : List String) : ℕ :=
  tr.countP (fun l => "\nResult: ".toList.isPrefixOf l.toList)

/-- Follows the spec's words for the termination claim: whether some line
read in the choice position is the exit token `"5"`.  Operand lines
consumed by an iteration (one when the first parse fails, else two) are
not choice positions. -/
def exitChosen : List String → Bool
  | [] => false
  | choice :: rest =>
    if choice = "5" then true
    else if choice ∈ opTokens then
      match rest with
      | [] => false
      | s1 :: rest1 =>
        match parseFloat s1 with
        | none => exitChosen rest1
        | some _ =>
          match rest1 with
          | [] => false
          | _ :: rest2 => exitChosen rest2
    else exitChosen rest

/-- The stdin lines fed by a list of (choice, first operand, second
operand) iterations. -/
def iterLines : List (String × String × String) → List String
  | [] => []
  | (c, a, b) :: t => c :: a :: b :: iterLines t

/-- A valid non-exit iteration: an operation choice and two operand texts
that parse as floats. -/
abbrev validIter (x : String × String × String) : Prop :=
  x.1 ∈ opTokens ∧ (parseFloat x.2.1).isSome = true ∧ (parseFloat x.2.2).isSome = true

/-- The output segment one valid iteration contributes, a function of that
iteration's own three input lines alone. -/
def iterOut (x : String × String × String) : List String :=
  menu ++ [promptChoice, promptFirst, promptSecond,
    resultLine (dispatch x.1 ((parseFloat x.2.1).getD 0) ((parseFloat x.2.2).getD 0))]

/-- Concatenation of the per-iteration output segments. -/
def itersOut (l : List (String × String × String)) : List String :=
  (l.map iterOut).flatten

/-- An operation token is not the exit token. -/
theorem mem_opTokens_ne_five {c : String} (h : c ∈ opTokens) : c ≠ "5" := by
  fin_cases h <;> decide

/-- Unfolding of `main` at the exit branch. -/
theorem main_exit (rest : List String) :
    main ("5" :: rest) = (menu ++ [promptChoice, goodbyeMsg], true) := by
  cases rest <;> simp [main]

/-- Unfolding of `main`: operation chosen but stdin ends before the first
operand. -/
theorem main_op_nil {c : String} (hc : c ∈ opTokens) :
    main [c] = (menu ++ [promptChoice, promptFirst], false) := by
  have h5 := mem_opTokens_ne_five hc
  simp [main, h5, hc]

/-- Unfolding of `main`: operation chosen, first operand parses, stdin ends
before the second operand. -/
theorem main_op_one {c s1 : String} {q1 : ℚ} (hc : c ∈ opTokens)
    (h1 : parseFloat s1 = some q1) :
    main [c, s1] = (menu ++ [promptChoice, promptFirst, promptSecond], false) := by
  have h5 := mem_opTokens_ne_five hc
  simp [main, h5, hc, h1]

/-- Unfolding of `main`: operation chosen, first operand fails to parse; the
second operand prompt is never reached and the loop resumes on the
untouched remaining input. -/
theorem main_op_fail1 {c s1 : String} (hc : c ∈ opTokens) (rest : List String)
    (h1 : parseFloat s1 = none) :
    main (c :: s1 :: rest)
      = (menu ++ [promptChoice, promptFirst, invalidInputMsg] ++ (main rest).1,
         (main rest).2) := by
  have h5 := mem_opTokens_ne_five hc
  simp [main, h5, hc, h1]

/-- Unfolding of `main`: operation chosen, first operand parses, second
operand fails to parse. -/
theorem main_op_fail2 {c s1 s2 : String} {q1 : ℚ} (hc : c ∈ opTokens)
    (h1 : parseFloat s1 = some q1) (h2 : parseFloat s2 = none) (rest : List String) :
    main (c :: s1 :: s2 :: rest)
      = (menu ++ [promptChoice, promptFirst, promptSecond, invalidInputMsg]
          ++ (main rest).1, (main rest).2) := by
  have h5 := mem_opTokens_ne_five hc
  simp [main, h5, hc, h1, h2]

/-- Unfolding of `main`: operation chosen and both operands parse; the
dispatched result is printed. -/
theorem main_op_ok {c s1 s2 : String} {q1 q2 : ℚ} (hc : c ∈ opTokens)
    (h1 : parseFloat s1 = some q1) (h2 : parseFloat s2 = some q2) (rest : List String) :
    main (c :: s1 :: s2 :: rest)
      = (menu ++ [promptChoice, promptFirst, promptSecond,
          resultLine (dispatch c q1 q2)] ++ (main rest).1, (main rest).2) := by
  have h5 := mem_opTokens_ne_five hc
  simp [main, h5, hc, h1, h2]

/-- Unfolding of `main` at the invalid-selection branch. -/
theorem main_invalid {c : String} (h5 : c ≠ "5") (hc : c ∉ opTokens)
    (rest : List String) :
    main (c :: rest)
      = (menu ++ [promptChoice, invalidSelectionMsg] ++ (main rest).1,
         (main rest).2) := by
  cases rest <;> simp [main, h5, hc]

/-- Every run starts by printing the menu and the choice prompt. -/
theorem main_fst_shape (inp : List String) :
    ∃ t, (main inp).1 = menuHeader :: menuOptions :: promptChoice :: t := by
  cases inp with
  | nil => exact ⟨[], rfl⟩
  | cons c rest =>
    by_cases h5 : c = "5"
    · subst h5
      exact ⟨[goodbyeMsg], by rw [main_exit rest]; simp [menu]⟩
    · by_cases hc : c ∈ opTokens
      · cases rest with
        | nil => exact ⟨[promptFirst], by rw [main_op_nil hc]; simp [menu]⟩
        | cons s1 rest1 =>
          cases h1 : parseFloat s1 with
          | none =>
            exact ⟨[promptFirst, invalidInputMsg] ++ (main rest1).1,
              by rw [main_op_fail1 hc rest1 h1]; simp [menu]⟩
          | some q1 =>
            cases rest1 with
            | nil => exact ⟨[promptFirst, promptSecond], by rw [main_op_one hc h1]; simp [menu]⟩
            | cons s2 rest2 =>
              cases h2 : parseFloat s2 with
              | none =>
                exact ⟨[promptFirst, promptSecond, invalidInputMsg] ++ (main rest2).1,
                  by rw [main_op_fail2 hc h1 h2 rest2]; simp [menu]⟩
              | some q2 =>
                exact ⟨[promptFirst, promptSecond, resultLine (dispatch c q1 q2)]
                    ++ (main rest2).1,
                  by rw [main_op_ok hc h1 h2 rest2]; simp [menu]⟩
      · exact ⟨[invalidSelectionMsg] ++ (main rest).1,
          by rw [main_invalid h5 hc rest]; simp [menu]⟩

/-- The output trace is never empty. -/
theorem main_fst_ne_nil (inp : List String) : (main inp).1 ≠ [] := by
  obtain ⟨t, ht⟩ := main_fst_shape inp
  simp [ht]

/-- The farewell is never equal to a result line (a result line starts with
a newline). -/
theorem goodbye_ne_resultLine (v : PyVal) : goodbyeMsg ≠ resultLine v := by
  intro h
  have hlen := congrArg String.length h
  simp only [resultLine, String.length_append] at hlen
  have e1 : goodbyeMsg.length = 8 := rfl
  have e2 : ("\nResult: " : String).length = 9 := rfl
  rw [e1, e2] at hlen
  omega

/-- The farewell does not occur in the output segment of a successful
operation iteration. -/
theorem goodbye_notmem_result_seg (v : PyVal) :
    goodbyeMsg ∉ menu ++ [promptChoice, promptFirst, promptSecond, resultLine v] := by
  intro h
  rcases List.mem_append.mp h with hA | hB
  · exact absurd hA (by decide)
  · simp only [List.mem_cons, List.not_mem_nil, or_false] at hB
    rcases hB with h1 | h1 | h1 | h1
    · exact absurd h1 (by decide)
    · exact absurd h1 (by decide)
    · exact absurd h1 (by decide)
    · exact goodbye_ne_resultLine v h1

/-- Processing a block of valid non-exit iterations prepends exactly the
concatenation of their per-iteration segments and continues, stateless, on
the remaining input. -/
theorem main_iters_append (l : List (String × String × String)) (t : List String)
    (h : ∀ x ∈ l, validIter x) :
    main (iterLines l ++ t) = (itersOut l ++ (main t).1, (main t).2) := by
  induction l with
  | nil => simp [iterLines, itersOut]
  | cons x l ih =>
    obtain ⟨c, a, b⟩ := x
    obtain ⟨hc, h1, h2⟩ := h _ (List.mem_cons_self _ _)
    obtain ⟨q1, hq1⟩ := Option.isSome_iff_exists.mp h1
    obtain ⟨q2, hq2⟩ := Option.isSome_iff_exists.mp h2
    have ht := ih (fun y hy => h y (List.mem_cons_of_mem _ hy))
    simp only [iterLines, List.cons_append]
    rw [main_op_ok hc hq1 hq2, ht]
    simp [itersOut, iterOut, hq1, hq2, List.append_assoc]

/-- Claim C1, as stated, is false: on the input line sequence
["1", "2", "3", "5"] the loop prints exactly one result line ("1" is the
choice, "2" and "3" are the operands of the single add iteration), not
two. -/
theorem C1_counterexample :
    ¬ countResults (main ["1", "2", "3", "5"]).1 = 2 := by
  have h : countResults (main ["1", "2", "3", "5"]).1 = 1 := by
    with_unfolding_all rfl
  omega

/-- Claim C1 (amended): for the input line sequence ["1", "2", "3", "5"],
the menu loop prints one add result — with operands 2 and 3 it prints
"Result: 5.0" (preceded by the f-string's newline) — then "Goodbye!", then
terminates. -/
theorem C1_run :
    main ["1", "2", "3", "5"]
      = ([menuHeader, menuOptions, promptChoice, promptFirst, promptSecond,
          "\nResult: 5.0", menuHeader, menuOptions, promptChoice, goodbyeMsg], true)
    ∧ countResults (main ["1", "2", "3", "5"]).1 = 1 := by
  constructor
  · with_unfolding_all rfl
  · with_unfolding_all rfl

/-- Claim C2: for every operand x, divide(x, 0) returns exactly the string
"Error: Cannot divide by zero" (and, being total, never raises); end to
end, choice "4" with operand texts "10" and "0" produces output containing
"Result: Error: Cannot divide by zero". -/
theorem C2_divide_by_zero :
    (∀ x : ℚ, divide x 0 = .str "Error: Cannot divide by zero")
    ∧ "\nResult: " ++ "Error: Cannot divide by zero" ∈ (main ["4", "10", "0"]).1 := by
  constructor
  · intro x
    simp [divide]
  · have h : (main ["4", "10", "0"]).1
        = [menuHeader, menuOptions, promptChoice, promptFirst, promptSecond,
           "\nResult: Error: Cannot divide by zero", menuHeader, menuOptions,
           promptChoice] := by
      with_unfolding_all rfl
    have e : "\nResult: " ++ "Error: Cannot divide by zero"
        = "\nResult: Error: Cannot divide by zero" := by
      with_unfolding_all rfl
    rw [h, e]
    simp

/-- Claim C3: for all x and y, add(x, y) = x + y, subtract(x, y) = x - y
and multiply(x, y) = x * y, and whenever y ≠ 0, divide(x, y) = x / y. -/
theorem C3_ops (x y : ℚ) :
    add x y = x + y ∧ subtract x y = x - y ∧ multiply x y = x * y
    ∧ (y ≠ 0 → divide x y = .num (x / y)) :=
  ⟨rfl, rfl, rfl, fun hy => by simp [divide, hy]⟩

/-- Witness for C3 at x = 6, y = 3, discharging the divide hypothesis. -/
theorem C3_ops_w :
    add 6 3 = 6 + 3 ∧ subtract 6 3 = 6 - 3 ∧ multiply 6 3 = 6 * 3
    ∧ (3 : ℚ) ≠ 0 ∧ divide 6 3 = .num (6 / 3) :=
  ⟨(C3_ops 6 3).1, (C3_ops 6 3).2.1, (C3_ops 6 3).2.2.1, by norm_num,
   (C3_ops 6 3).2.2.2 (by norm_num)⟩

/-- Claim C4: in an iteration with a valid operation choice whose first
(or second) operand text fails to parse, the loop prints exactly the
invalid-input message after the prompts, performs no arithmetic (no result
line in the segment), retains no partial state, and resumes at the menu:
the continuation is literally the run on the untouched remaining input. -/
theorem C4_invalid_operand (choice s1 s2 : String) (rest : List String)
    (hc : choice ∈ opTokens) :
    (parseFloat s1 = none →
      main (choice :: s1 :: rest)
        = (menu ++ [promptChoice, promptFirst, invalidInputMsg] ++ (main rest).1,
           (main rest).2))
    ∧ (∀ q1, parseFloat s1 = some q1 → parseFloat s2 = none →
      main (choice :: s1 :: s2 :: rest)
        = (menu ++ [promptChoice, promptFirst, promptSecond, invalidInputMsg]
            ++ (main rest).1, (main rest).2)) :=
  ⟨fun h1 => main_op_fail1 hc rest h1,
   fun _ h1 h2 => main_op_fail2 hc h1 h2 rest⟩

/-- Witness for C4: choice "1" with first operand "abc". -/
theorem C4_invalid_operand_w :
    main ["1", "abc"]
      = (menu ++ [promptChoice, promptFirst, invalidInputMsg] ++ (main []).1,
         (main []).2) :=
  (C4_invalid_operand "1" "abc" "" [] (by decide)).1 (by rfl)

/-- Claim C5: a choice matching none of the five tokens prints exactly the
invalid-selection message, consumes no operand line, and resumes the loop
on the untouched remaining input, whose output starts with the reprinted
menu. -/
theorem C5_invalid_selection (choice : String) (rest : List String)
    (h : choice ∉ ["1", "2", "3", "4", "5"]) :
    main (choice :: rest)
      = (menu ++ [promptChoice, invalidSelectionMsg] ++ (main rest).1, (main rest).2)
    ∧ ∃ t, (main rest).1 = menuHeader :: menuOptions :: promptChoice :: t := by
  have h5 : choice ≠ "5" := by
    intro e
    exact h (by rw [e]; decide)
  have hc : choice ∉ opTokens := by
    intro e
    apply h
    fin_cases e <;> decide
  exact ⟨main_invalid h5 hc rest, main_fst_shape rest⟩

/-- Witness for C5: choice "7". -/
theorem C5_invalid_selection_w :
    main ["7"]
      = (menu ++ [promptChoice, invalidSelectionMsg] ++ (main []).1, (main []).2) :=
  (C5_invalid_selection "7" [] (by decide)).1

/-- Claim C6: the loop exits exactly when some line read in the choice
position is "5" (errors — bad choice, unparsable operand, divide-by-zero —
never terminate it); on exit the last output is "Goodbye!", and when the
run ends by input exhaustion instead, "Goodbye!" was never printed. -/
theorem C6_exit_iff (inp : List String) :
    (main inp).2 = exitChosen inp
    ∧ ((main inp).2 = true → (main inp).1.getLast? = some goodbyeMsg)
    ∧ ((main inp).2 = false → goodbyeMsg ∉ (main inp).1) := by
  induction inp using main.induct with
  | case1 =>
    exact ⟨rfl, fun h => by simp [main] at h, fun _ => by decide⟩
  | case2 rest =>
    refine ⟨?_, fun _ => ?_, fun h => ?_⟩
    · rw [main_exit rest]
      rcases rest with _ | ⟨s1, _ | ⟨s2, r⟩⟩ <;> simp [exitChosen]
    · rw [main_exit rest]
      decide
    · rw [main_exit rest] at h
      simp at h
  | case3 c h5 hc =>
    refine ⟨?_, fun h => ?_, fun _ => ?_⟩
    · rw [main_op_nil hc]
      simp [exitChosen, h5, hc]
    · rw [main_op_nil hc] at h
      simp at h
    · rw [main_op_nil hc]
      decide
  | case4 c h5 hc s1 rest1 h1 ih =>
    obtain ⟨ih1, ih2, ih3⟩ := ih
    have e := main_op_fail1 hc rest1 h1
    refine ⟨?_, fun h => ?_, fun h => ?_⟩
    · have he : exitChosen (c :: s1 :: rest1) = exitChosen rest1 := by
        cases rest1 <;> simp [exitChosen, h5, hc, h1]
      rw [e, he]
      exact ih1
    · rw [e] at h ⊢
      show ((menu ++ [promptChoice, promptFirst, invalidInputMsg])
          ++ (main rest1).1).getLast? = some goodbyeMsg
      rw [List.getLast?_append_of_ne_nil _ (main_fst_ne_nil rest1)]
      exact ih2 h
    · rw [e] at h ⊢
      intro hmem
      rcases List.mem_append.mp hmem with hA | hB
      · exact absurd hA (by decide)
      · exact ih3 h hB
  | case5 c h5 hc s1 q1 h1 =>
    have e := main_op_one hc h1
    refine ⟨?_, fun h => ?_, fun _ => ?_⟩
    · rw [e]
      simp [exitChosen, h5, hc, h1]
    · rw [e] at h
      simp at h
    · rw [e]
      decide
  | case6 c h5 hc s1 q1 h1 s2 rest2 h2 ih =>
    obtain ⟨ih1, ih2, ih3⟩ := ih
    have e := main_op_fail2 hc h1 h2 rest2
    refine ⟨?_, fun h => ?_, fun h => ?_⟩
    · have he : exitChosen (c :: s1 :: s2 :: rest2) = exitChosen rest2 := by
        simp [exitChosen, h5, hc, h1]
      rw [e, he]
      exact ih1
    · rw [e] at h ⊢
      show ((menu ++ [promptChoice, promptFirst, promptSecond, invalidInputMsg])
          ++ (main rest2).1).getLast? = some goodbyeMsg
      rw [List.getLast?_append_of_ne_nil _ (main_fst_ne_nil rest2)]
      exact ih2 h
    · rw [e] at h ⊢
      intro hmem
      rcases List.mem_append.mp hmem with hA | hB
      · exact absurd hA (by decide)
      · exact ih3 h hB
  | case7 c h5 hc s1 q1 h1 s2 rest2 q2 h2 ih =>
    obtain ⟨ih1, ih2, ih3⟩ := ih
    have e := main_op_ok hc h1 h2 rest2
    refine ⟨?_, fun h => ?_, fun h => ?_⟩
    · have he : exitChosen (c :: s1 :: s2 :: rest2) = exitChosen rest2 := by
        simp [exitChosen, h5, hc, h1]
      rw [e, he]
      exact ih1
    · rw [e] at h ⊢
      show ((menu ++ [promptChoice, promptFirst, promptSecond,
          resultLine (dispatch c q1 q2)]) ++ (main rest2).1).getLast? = some goodbyeMsg
      rw [List.getLast?_append_of_ne_nil _ (main_fst_ne_nil rest2)]
      exact ih2 h
    · rw [e] at h ⊢
      intro hmem
      rcases List.mem_append.mp hmem with hA | hB
      · exact absurd hA (goodbye_notmem_result_seg (dispatch c q1 q2))
      · exact ih3 h hB
  | case8 c rest h5 hc ih =>
    obtain ⟨ih1, ih2, ih3⟩ := ih
    have e := main_invalid h5 hc rest
    refine ⟨?_, fun h => ?_, fun h => ?_⟩
    · have he : exitChosen (c :: rest) = exitChosen rest := by
        rcases rest with _ | ⟨s1, _ | ⟨s2, r⟩⟩ <;> simp [exitChosen, h5, hc]
      rw [e, he]
      exact ih1
    · rw [e] at h ⊢
      show ((menu ++ [promptChoice, invalidSelectionMsg])
          ++ (main rest).1).getLast? = some goodbyeMsg
      rw [List.getLast?_append_of_ne_nil _ (main_fst_ne_nil rest)]
      exact ih2 h
    · rw [e] at h ⊢
      intro hmem
      rcases List.mem_append.mp hmem with hA | hB
      · exact absurd hA (by decide)
      · exact ih3 h hB

/-- Witness for C6 at the input ["5"]. -/
theorem C6_exit_iff_w :
    (main ["5"]).2 = exitChosen ["5"]
    ∧ (main ["5"]).1.getLast? = some goodbyeMsg :=
  ⟨(C6_exit_iff ["5"]).1, (C6_exit_iff ["5"]).2.1 (by decide)⟩

/-- Claim C7: running the same valid choice/operand sequence twice in one
session prints identical results both times — the output of the doubled
sequence is the per-iteration segment list twice over, each segment a
function of its own iteration's three lines only, so no state is carried
between iterations. -/
theorem C7_idempotent (l : List (String × String × String))
    (h : ∀ x ∈ l, validIter x) :
    (main (iterLines l ++ iterLines l)).1
      = itersOut l ++ itersOut l ++ (main []).1
    ∧ (main (iterLines l ++ iterLines l)).2 = false := by
  have e1 := main_iters_append l (iterLines l) h
  have e2 := main_iters_append l [] h
  rw [List.append_nil] at e2
  rw [e1, e2]
  exact ⟨by simp [List.append_assoc], rfl⟩

/-- Witness for C7: the add iteration ("1", "2", "3"), run twice. -/
theorem C7_idempotent_w :
    (main (iterLines [("1", "2", "3")] ++ iterLines [("1", "2", "3")])).1
      = itersOut [("1", "2", "3")] ++ itersOut [("1", "2", "3")] ++ (main []).1 :=
  (C7_idempotent [("1", "2", "3")]
    (fun x hx => by
      rcases List.mem_singleton.mp hx with rfl
      exact ⟨by decide, by rfl, by rfl⟩)).1

/-- Claim C8: add and multiply are commutative and subtract is
anti-commutative under argument swap. -/
theorem C8_comm (x y : ℚ) :
    add x y = add y x ∧ multiply x y = multiply y x
    ∧ subtract x y = - subtract y x := by
  refine ⟨?_, ?_, ?_⟩
  · simp [add, add_comm]
  · simp [multiply, mul_comm]
  · simp only [subtract]
    ring

/-- Claim C9: in an iteration with a valid operation choice whose first
operand text does not parse, the program prints the invalid-input message
but never prints the second-operand prompt in that iteration, nor reads a
second operand line — the remaining input is passed on untouched. -/
theorem C9_no_second_prompt (choice s1 : String) (rest : List String)
    (hc : choice ∈ opTokens) (h1 : parseFloat s1 = none) :
    main (choice :: s1 :: rest)
      = (menu ++ [promptChoice, promptFirst, invalidInputMsg] ++ (main rest).1,
         (main rest).2)
    ∧ promptSecond ∉ menu ++ [promptChoice, promptFirst, invalidInputMsg] :=
  ⟨main_op_fail1 hc rest h1, by decide⟩

/-- Witness for C9: choice "2" with first operand "abc". -/
theorem C9_no_second_prompt_w :
    main ["2", "abc"]
      = (menu ++ [promptChoice, promptFirst, invalidInputMsg] ++ (main []).1,
         (main []).2)
    ∧ promptSecond ∉ menu ++ [promptChoice, promptFirst, invalidInputMsg] :=
  C9_no_second_prompt "2" "abc" [] (by decide) (by rfl)

/-- Claim C10: menu choice matching is exact string comparison — every
choice line not character-for-character equal to one of the five tokens
takes the invalid-selection branch, in particular the whitespace variants
" 1" and "5 " and the padded "05" — and an iteration exits immediately
exactly when its choice line is the exact string "5". -/
theorem C10_exact_match (rest : List String) :
    (∀ choice : String, choice ∉ ["1", "2", "3", "4", "5"] →
      main (choice :: rest)
        = (menu ++ [promptChoice, invalidSelectionMsg] ++ (main rest).1, (main rest).2))
    ∧ main (" 1" :: rest)
      = (menu ++ [promptChoice, invalidSelectionMsg] ++ (main rest).1, (main rest).2)
    ∧ main ("5 " :: rest)
      = (menu ++ [promptChoice, invalidSelectionMsg] ++ (main rest).1, (main rest).2)
    ∧ main ("05" :: rest)
      = (menu ++ [promptChoice, invalidSelectionMsg] ++ (main rest).1, (main rest).2)
    ∧ ∀ choice : String,
        (∀ r : List String, main (choice :: r) = (menu ++ [promptChoice, goodbyeMsg], true))
        ↔ choice = "5" := by
  have huniv : ∀ choice : String, choice ∉ ["1", "2", "3", "4", "5"] →
      main (choice :: rest)
        = (menu ++ [promptChoice, invalidSelectionMsg] ++ (main rest).1, (main rest).2) := by
    intro choice h
    have h5 : choice ≠ "5" := by
      intro e
      exact h (by rw [e]; decide)
    have hc : choice ∉ opTokens := by
      intro e
      apply h
      fin_cases e <;> decide
    exact main_invalid h5 hc rest
  refine ⟨huniv, huniv " 1" (by decide), huniv "5 " (by decide), huniv "05" (by decide),
    fun choice => ⟨fun H => ?_, fun h r => by rw [h]; exact main_exit r⟩⟩
  by_contra h5
  by_cases hc : choice ∈ opTokens
  · have h := congrArg Prod.snd (H [])
    rw [main_op_nil hc] at h
    simp at h
  · have h := congrArg Prod.snd (H [])
    rw [main_invalid h5 hc []] at h
    simp [main] at h

/-- Witness for C10: the universal invalid-selection conjunct at "6", and
the exit characterization applied at "5", both with empty remaining
input. -/
theorem C10_exact_match_w :
    main ["6"]
      = (menu ++ [promptChoice, invalidSelectionMsg] ++ (main []).1, (main []).2)
    ∧ main ["5"] = (menu ++ [promptChoice, goodbyeMsg], true) :=
  ⟨(C10_exact_match []).1 "6" (by decide),
   ((C10_exact_match []).2.2.2.2 "5").mpr rfl []⟩

end Calculator
